import Mathlib

/-!
Verification development for the CBFD Keras layer (src/cbfd.py).

The layer is embedded shallowly over exact rationals (ℚ): every tensor
arithmetic operation used by the source (`K.dot`, `K.sign`, `K.mean`,
elementwise `+ - * **`, numpy-style broadcasting of binary operations)
is modelled on rectangular `List (List ℚ)` arrays, and the layer's four
operations (`build`, `call`, `compute_output_shape`, `get_config`) become
total Lean functions returning `Except`/`Option` where the Python code can
raise.  Shapes are modelled as `List (Option ℤ)` (a dimension is an
integer or `None`), matching Keras shape tuples.

Framework behaviour that the repository merely delegates to (weight
initialisation values, strategy lookup by mnemonic, the base layer's own
config record) is abstracted as parameters; the comments on each
definition say which source lines it embeds.
-/

/-- A 2-D array of rationals (row-major).  Values of this type are only
meaningful when rectangular and nonempty; `shape2` enforces that. -/
abbrev Arr2 := List (List ℚ)

/-- Shape of a 2-D array: `some (rows, cols)` when the array is nonempty and
rectangular, `none` otherwise.  (Zero-row arrays are outside the modelled
domain; no claim touches them.) -/
def shape2 (a : Arr2) : Option (ℕ × ℕ) :=
  match a with
  | [] => none
  | r :: rs => if rs.all (fun x => x.length = r.length) then some (a.length, r.length) else none

/-- Entry access with default 0; only used at indices validated by `shape2`. -/
def get2 (a : Arr2) (i j : ℕ) : ℚ := (a.getD i []).getD j 0

/-- numpy broadcasting of one dimension pair: sizes are compatible when they
are equal or one of them is 1; the result size is the non-1 size. -/
def bdim (n m : ℕ) : Option ℕ :=
  if n = m then some n else if n = 1 then some m else if m = 1 then some n else none

/-- Index into a dimension of size `n` at broadcast position `i`
(a size-1 dimension is read at 0). -/
def bidx (n i : ℕ) : ℕ := if n = 1 then 0 else i

/-- numpy-style broadcast of an elementwise binary operation over two 2-D
arrays (TensorFlow binary ops follow the same rules).  A 1-D array of shape
`(M,)` participates as the 1-row array `[v]`, i.e. shape `(1, M)`: its
entries are aligned against the TRAILING axis of the other operand. -/
def bop2 (f : ℚ → ℚ → ℚ) (a b : Arr2) : Option Arr2 :=
  match shape2 a, shape2 b with
  | some (ra, ca), some (rb, cb) =>
    match bdim ra rb, bdim ca cb with
    | some r, some c =>
      some ((List.range r).map fun i => (List.range c).map fun j =>
        f (get2 a (bidx ra i) (bidx ca j)) (get2 b (bidx rb i) (bidx cb j)))
    | _, _ => none
  | _, _ => none

/-- Elementwise (scalar) map over a 2-D array. -/
def smap (f : ℚ → ℚ) (a : Arr2) : Arr2 := a.map (List.map f)

/-- `K.dot` on 2-D operands: matrix product, defined when the arrays are
rectangular and the inner dimensions agree. -/
def matmul (a b : Arr2) : Option Arr2 :=
  match shape2 a, shape2 b with
  | some (ra, ca), some (rb, cb) =>
    if ca = rb then
      some ((List.range ra).map fun i => (List.range cb).map fun j =>
        ((List.range ca).map fun k => get2 a i k * get2 b k j).sum)
    else none
  | _, _ => none

/-- `K.sign`: `1` for positive, `-1` for negative, `0` for zero. -/
def ksign (q : ℚ) : ℚ := if 0 < q then 1 else if q < 0 then -1 else 0

/-- The binarization of source line 77: `b = 0.5 * K.sign(output) + 1`. -/
def binarize (q : ℚ) : ℚ := 1/2 * ksign q + 1

/-- Mean of one row; `K.mean(output, axis=-1)` (keepdims is NOT set in the
source, so the reduced array has the last axis REMOVED) is
`y.map rowMean`, a 1-D array of length `batch`. -/
def rowMean (r : List ℚ) : ℚ := r.sum / r.length

/-- `self.activation(output)` when an activation was supplied, else identity.
(`activations.get(None)` resolves to the linear activation, so "no
activation supplied" and `act = none` compute the same `y`.) -/
def applyAct (act : Option (ℚ → ℚ)) (z : Arr2) : Arr2 :=
  match act with
  | none => z
  | some f => smap f z

/-- The loss tensor of source lines 78-83, given the binarized output `b`,
the post-activation projection `y` and the reference vectors `mw`, `mb`:
`F = Sw - Sb + 1e3*((b-0.5)-y)^2 + 1e3*(b-0.5)^2 - 1e6*((b - K.mean(y,-1))^2)`
with every binary operation broadcast numpy-style (left-associated, as in
the Python expression).  The reduced mean `y.map rowMean` has shape
`(batch,)` and therefore enters the subtraction as the 1-row array
`[y.map rowMean]`, aligned against the trailing units axis of `b`. -/
def lossOf (mw mb : List ℚ) (b y : Arr2) : Option Arr2 :=
  (bop2 (· - ·) b [mw]).bind fun Sw =>
  (bop2 (· - ·) b [mb]).bind fun Sb =>
  (bop2 (· - ·) (smap (fun q => q - 1/2) b) y).bind fun d1 =>
  (bop2 (· - ·) b [y.map rowMean]).bind fun d3 =>
  (bop2 (· - ·) Sw Sb).bind fun f0 =>
  (bop2 (· + ·) f0 (smap (fun q => 1000 * q ^ 2) d1)).bind fun f1 =>
  (bop2 (· + ·) f1 (smap (fun q => 1000 * (q - 1/2) ^ 2) b)).bind fun f2 =>
  (bop2 (· - ·) f2 (smap (fun q => 1000000 * q ^ 2) d3)).map fun F => F

/-- Mutable state of a built CBFD layer: attributes set in `__init__` and
`build`, plus the list of loss tensors accumulated by `add_loss`.
The activation attribute is passed separately to `CBFD_call` so that
states stay comparable by `decide`. -/
structure CBFDState where
  units : ℤ
  mw : List ℚ
  mb : List ℚ
  kernel : Arr2
  losses : List Arr2
  deriving DecidableEq, Repr

/-- The pure forward computation of `CBFD.call` (source lines 73-85):
project, activate, binarize, and build the loss tensor; `none` wherever
the Python code would raise a shape error. -/
def CBFD_forward (act : Option (ℚ → ℚ)) (kernel : Arr2) (mw mb : List ℚ) (x : Arr2) :
    Option (Arr2 × Arr2) :=
  (matmul x kernel).bind fun z =>
    let y := applyAct act z
    let b := smap binarize y
    (lossOf mw mb b y).map fun F => (b, F)

/-- `CBFD.call`: computes the forward pass, registers the loss tensor via
`add_loss` (modelled as appending to `losses`) and returns `b`. -/
def CBFD_call (act : Option (ℚ → ℚ)) (s : CBFDState) (x : Arr2) :
    Except String (Arr2 × CBFDState) :=
  match CBFD_forward act s.kernel s.mw s.mb x with
  | none => .error "shape error"
  | some (b, F) => .ok (b, { s with losses := s.losses ++ [F] })

/-- `CBFD.__init__` (source lines 40-59): stores `units`, `m_w`, `m_b` and the
resolved strategies.  The source performs NO validation of `units`; the
only code in the body that can raise is the strategy lookup, which is
framework code abstracted away here, so construction always succeeds. -/
def CBFD_init (units : ℤ) (mw mb : List ℚ) : Except String CBFDState :=
  .ok { units := units, mw := mw, mb := mb, kernel := [], losses := [] }

/-- `CBFD.build` (source lines 61-71), reduced to what it computes from this
repository's code: `assert len(input_shape) >= 2`, then
`input_dim = int(input_shape[-1])` (a `TypeError` when the trailing
dimension is `None`), then the kernel of shape `(input_dim, units)` is
allocated by the framework.  Returns the kernel shape. -/
def CBFD_build (input_shape : List (Option ℤ)) (units : ℤ) : Except String (ℤ × ℤ) :=
  if input_shape.length < 2 then .error "AssertionError"
  else
    match input_shape.getLast? with
    | some (some d) => .ok (d, units)
    | _ => .error "TypeError"

/-- `CBFD.compute_output_shape` (source lines 87-92):
`assert input_shape and len(input_shape) >= 2` then
`assert input_shape[-1]` — note Python truthiness: the second assert
fails when the trailing dimension is `None` AND when it is `0` —
then the trailing dimension is replaced by `self.units`. -/
def CBFD_compute_output_shape (units : ℤ) (input_shape : List (Option ℤ)) :
    Except String (List (Option ℤ)) :=
  if input_shape = [] then .error "AssertionError"
  else if input_shape.length < 2 then .error "AssertionError"
  else
    match input_shape.getLast? with
    | some (some d) =>
      if d = 0 then .error "AssertionError"
      else .ok (input_shape.dropLast ++ [some units])
    | _ => .error "AssertionError"

/-- `CBFD.get_config` (source lines 94-105): the layer's own record holds
`units` and the serialized strategies (the serialized forms are opaque
framework strings, passed in as parameters), merged after the base
layer's record exactly as `dict(list(base.items()) + list(config.items()))`
does. -/
def CBFD_get_config (base : List (String × String)) (units : ℤ)
    (actS kiS krS arS kcS : String) : List (String × String) :=
  base ++ [("units", toString units), ("activation", actS),
           ("kernel_initializer", kiS), ("kernel_regularizer", krS),
           ("activity_regularizer", arS), ("kernel_constraint", kcS)]

/-- Modelled from the spec (§4.1 step 6): the loss formula as the spec words
it, with the mean term "reduced across the last axis and broadcast back to
the full shape of `b` before the subtraction", i.e. entry `(i,j)` subtracts
the mean of ROW `i`.  Used to compare the spec's formula with the code's. -/
def specLoss (mw mb : List ℚ) (y : Arr2) : Arr2 :=
  y.map fun row =>
    let m := rowMean row
    (List.range row.length).map fun j =>
      let yj := row.getD j 0
      let b := binarize yj
      (b - mw.getD j 0) - (b - mb.getD j 0)
        + 1000 * ((b - 1/2) - yj) ^ 2 + 1000 * (b - 1/2) ^ 2
        - 1000000 * (b - m) ^ 2

/-- Identity 2x2 kernel, used by several concrete instances. -/
def idK2 : Arr2 := [[1, 0], [0, 1]]

/-- Concrete instance for C1: units=2, references zero, identity kernel. -/
def c1s : CBFDState := { units := 2, mw := [0, 0], mb := [0, 0], kernel := idK2, losses := [] }

/-- One-unit instance used to witness the general forward theorems. -/
def c1w : CBFDState := { units := 1, mw := [0], mb := [0], kernel := [[1]], losses := [] }

/-- State of `c1w` after one forward call on `[[1]]`. -/
def c1w2 : CBFDState := { c1w with losses := [[[-249000]]] }

/-- Concrete instance for C2 (failing input of the keepdims slip). -/
def c2s : CBFDState := { units := 2, mw := [0, 0], mb := [0, 0], kernel := idK2, losses := [] }

/-- Concrete instance for C3's counterexample. -/
def c3s : CBFDState := { units := 2, mw := [0, 0], mb := [0, 0], kernel := idK2, losses := [] }

/-- One-unit instance for C3's witness. -/
def c3w : CBFDState := { units := 1, mw := [0], mb := [0], kernel := [[1]], losses := [] }

/-- Concrete instance of the spec's worked example (C7): `m_b = [1,1]`. -/
def c7s : CBFDState := { units := 2, mw := [0, 0], mb := [1, 1], kernel := idK2, losses := [] }

/-- One-unit instance for C9's witness. -/
def w9s : CBFDState := { units := 1, mw := [0], mb := [0], kernel := [[1]], losses := [] }

/-- State of `w9s` after one forward call on `[[1]]`. -/
def w9s2 : CBFDState := { w9s with losses := [[[-249000]]] }

instance {ε α : Type _} [DecidableEq ε] [DecidableEq α] : DecidableEq (Except ε α) := fun a b =>
  match a, b with
  | .error e, .error f =>
    if h : e = f then .isTrue (congrArg Except.error h)
    else .isFalse (fun hh => h (Except.error.inj hh))
  | .ok x, .ok y =>
    if h : x = y then .isTrue (congrArg Except.ok h)
    else .isFalse (fun hh => h (Except.ok.inj hh))
  | .error _, .ok _ => .isFalse (fun hh => Except.noConfusion hh)
  | .ok _, .error _ => .isFalse (fun hh => Except.noConfusion hh)

theorem binarize_cases (q : ℚ) : binarize q = 1/2 ∨ binarize q = 1 ∨ binarize q = 3/2 := by
  unfold binarize ksign
  split
  · right; right; norm_num
  · split
    · left; norm_num
    · right; left; norm_num

theorem smap_binarize_mem (z : Arr2) :
    ∀ row ∈ smap binarize z, ∀ q ∈ row, q = 1/2 ∨ q = 1 ∨ q = 3/2 := by
  intro row hrow q hq
  simp only [smap, List.mem_map] at hrow
  obtain ⟨r0, -, rfl⟩ := hrow
  simp only [List.mem_map] at hq
  obtain ⟨q0, -, rfl⟩ := hq
  exact binarize_cases q0

theorem CBFD_call_ok (act : Option (ℚ → ℚ)) (s : CBFDState) (x b : Arr2) (s' : CBFDState)
    (h : CBFD_call act s x = .ok (b, s')) :
    ∃ F, CBFD_forward act s.kernel s.mw s.mb x = some (b, F) ∧
      s' = { s with losses := s.losses ++ [F] } := by
  unfold CBFD_call at h
  cases hf : CBFD_forward act s.kernel s.mw s.mb x with
  | none => rw [hf] at h; exact absurd h (by simp)
  | some p =>
    obtain ⟨b0, F0⟩ := p
    rw [hf] at h
    simp only [Except.ok.injEq, Prod.mk.injEq] at h
    exact ⟨F0, by rw [h.1], h.2.symm⟩

theorem CBFD_forward_ok (act : Option (ℚ → ℚ)) (kernel : Arr2) (mw mb : List ℚ) (x b F : Arr2)
    (h : CBFD_forward act kernel mw mb x = some (b, F)) :
    ∃ z, matmul x kernel = some z ∧ b = smap binarize (applyAct act z) ∧
      lossOf mw mb (smap binarize (applyAct act z)) (applyAct act z) = some F := by
  unfold CBFD_forward at h
  cases hz : matmul x kernel with
  | none => rw [hz] at h; simp at h
  | some z =>
    rw [hz] at h
    simp only [Option.some_bind] at h
    cases hl : lossOf mw mb (smap binarize (applyAct act z)) (applyAct act z) with
    | none => rw [hl] at h; simp at h
    | some F0 =>
      rw [hl] at h
      injection h with hp
      injection hp with hb hF
      exact ⟨z, rfl, hb.symm, by rw [hl, hF]⟩

theorem cOS_ok_of (u : ℤ) (s : List (Option ℤ)) (d : ℤ) (hlen : 2 ≤ s.length)
    (hlast : s.getLast? = some (some d)) (hd : d ≠ 0) :
    CBFD_compute_output_shape u s = .ok (s.dropLast ++ [some u]) := by
  have hne : s ≠ [] := by
    intro h0
    subst h0
    simp at hlen
  unfold CBFD_compute_output_shape
  rw [if_neg hne, if_neg (by omega : ¬ s.length < 2), hlast]
  exact if_neg hd

theorem cOS_fail_of (u : ℤ) (s : List (Option ℤ))
    (h : s.length < 2 ∨ s.getLast? = some none ∨ s.getLast? = some (some 0)) :
    CBFD_compute_output_shape u s = .error "AssertionError" := by
  unfold CBFD_compute_output_shape
  rcases h with h | h | h
  · by_cases h0 : s = []
    · rw [if_pos h0]
    · rw [if_neg h0, if_pos h]
  · have hne : s ≠ [] := by
      intro h0
      subst h0
      simp at h
    rw [if_neg hne]
    by_cases h2 : s.length < 2
    · rw [if_pos h2]
    · rw [if_neg h2, h]
  · have hne : s ≠ [] := by
      intro h0
      subst h0
      simp at h
    rw [if_neg hne]
    by_cases h2 : s.length < 2
    · rw [if_pos h2]
    · rw [if_neg h2, h]
      exact if_pos rfl

theorem build_ok_of (u : ℤ) (s : List (Option ℤ)) (d : ℤ) (hlen : 2 ≤ s.length)
    (hlast : s.getLast? = some (some d)) : CBFD_build s u = .ok (d, u) := by
  unfold CBFD_build
  rw [if_neg (by omega : ¬ s.length < 2), hlast]

theorem build_fail_short (u : ℤ) (s : List (Option ℤ)) (h : s.length < 2) :
    CBFD_build s u = .error "AssertionError" := by
  unfold CBFD_build
  rw [if_pos h]

theorem build_fail_none (u : ℤ) (s : List (Option ℤ)) (h2 : 2 ≤ s.length)
    (hlast : s.getLast? = some none) : CBFD_build s u = .error "TypeError" := by
  unfold CBFD_build
  rw [if_neg (by omega : ¬ s.length < 2), hlast]

unseal Rat.add Rat.sub Rat.mul Rat.inv

/-- C1, counterexample to the claim as stated: the input `x` (3 rows of 2)
and the weight matrix of `c1s` (the 2x2 identity) have compatible shapes —
the projection `x·W` is well defined, first conjunct — yet the forward
computation does NOT return: the loss expression subtracts
`K.mean(output, axis=-1)` of shape `(3,)` from `b` of shape `(3, 2)`,
which is not broadcastable, so the call raises before returning `b`. -/
theorem C1_counterexample :
    matmul [[1, 0], [0, 1], [1, 1]] c1s.kernel = some [[1, 0], [0, 1], [1, 1]] ∧
    CBFD_call none c1s [[1, 0], [0, 1], [1, 1]] = .error "shape error" := by
  constructor
  · decide
  · decide

/-- C1 (amended): whenever the forward computation with no activation
strategy returns at all, the returned `b` equals `0.5 * sign(x·W) + 1`
elementwise, and every entry of `b` lies in {0.5, 1.0, 1.5}.  (As stated
the claim also asserted that the computation returns for EVERY compatible
`x` and `W`; `C1_counterexample` refutes that part.) -/
theorem C1_theorem (s : CBFDState) (x b : Arr2) (s' : CBFDState)
    (h : CBFD_call none s x = .ok (b, s')) :
    (∃ z, matmul x s.kernel = some z ∧ b = smap binarize z) ∧
    ∀ row ∈ b, ∀ q ∈ row, q = 1/2 ∨ q = 1 ∨ q = 3/2 := by
  obtain ⟨F, hf, -⟩ := CBFD_call_ok none s x b s' h
  obtain ⟨z, hz, hb, -⟩ := CBFD_forward_ok none s.kernel s.mw s.mb x b F hf
  constructor
  · exact ⟨z, hz, hb⟩
  · rw [hb]
    exact smap_binarize_mem (applyAct none z)

/-- C1 witness: the amended theorem applied to a concrete one-unit call. -/
theorem C1_witness :
    (∃ z, matmul [[1]] c1w.kernel = some z ∧ ([[3/2]] : Arr2) = smap binarize z) ∧
    ∀ row ∈ ([[3/2]] : Arr2), ∀ q ∈ row, q = 1/2 ∨ q = 1 ∨ q = 3/2 :=
  C1_theorem c1w [[1]] [[3/2]] c1w2 (by decide)

/-- C2: evidence for the keepdims slip.  On `x = [[1,1],[-1,-1]]` with the
identity kernel and `m_w = m_b = [0,0]` (batch = units = 2, so the code
does NOT raise), the loss actually registered by the code (first conjunct)
differs from the spec's §4.1 step 6 formula with the mean broadcast back
across the last axis (`specLoss`, second conjunct): the code aligns the
reduced mean against the TRAILING (units) axis, computing
`b[i][j] - mean(y[j])` instead of `b[i][j] - mean(y[i])`. -/
theorem C2_theorem :
    CBFD_call none c2s [[1, 1], [-1, -1]] =
      .ok ([[3/2, 3/2], [1/2, 1/2]],
        { c2s with losses := [[[-249000, -6249000], [-249000, -2249000]]] }) ∧
    specLoss [0, 0] [0, 0] [[1, 1], [-1, -1]] =
      [[-249000, -249000], [-2249000, -2249000]] ∧
    ([[-249000, -6249000], [-249000, -2249000]] : Arr2) ≠
      [[-249000, -249000], [-2249000, -2249000]] := by
  refine ⟨by decide, by decide, by decide⟩

/-- C3, counterexample to the claim as stated: a successful forward call
whose output contains the entry 1.5, which is not in {0, 1}. -/
theorem C3_counterexample :
    CBFD_call none c3s [[2, -3]] =
      .ok ([[3/2, 1/2]], { c3s with losses := [[[-3998000, -991000]]] }) ∧
    ¬ ((3:ℚ)/2 = 0 ∨ (3:ℚ)/2 = 1) := by
  constructor
  · decide
  · decide

/-- C3 (amended): every entry of the output of a successful forward call —
with or without an activation strategy — lies in {0.5, 1.0, 1.5}, the
image of `q ↦ 0.5 * sign(q) + 1` (not in {0, 1} as the claim stated). -/
theorem C3_theorem (act : Option (ℚ → ℚ)) (s : CBFDState) (x b : Arr2) (s' : CBFDState)
    (h : CBFD_call act s x = .ok (b, s')) :
    ∀ row ∈ b, ∀ q ∈ row, q = 1/2 ∨ q = 1 ∨ q = 3/2 := by
  obtain ⟨F, hf, -⟩ := CBFD_call_ok act s x b s' h
  obtain ⟨z, -, hb, -⟩ := CBFD_forward_ok act s.kernel s.mw s.mb x b F hf
  rw [hb]
  exact smap_binarize_mem (applyAct act z)

/-- C3 witness: the amended theorem applied to a concrete one-unit call and
instantiated at the single output entry 0.5. -/
theorem C3_witness :
    (1:ℚ)/2 = 1/2 ∨ (1:ℚ)/2 = 1 ∨ (1:ℚ)/2 = 3/2 :=
  C3_theorem none c3w [[-2]] [[1/2]] { c3w with losses := [[[-6246000]]] } (by decide)
    [1/2] (by simp) (1/2) (by simp)

/-- C4, counterexample to the claim as stated: the shape `(1, 0)` has rank
2 and a DEFINED trailing dimension, yet `compute_output_shape` fails (the
`assert input_shape[-1]` treats the dimension 0 as falsy) instead of
returning `(1, units)`. -/
theorem C4_counterexample :
    CBFD_compute_output_shape 1 [some 1, some 0] = .error "AssertionError" ∧
    CBFD_compute_output_shape 1 [some 1, some 0] ≠ .ok [some 1, some 1] := by
  constructor
  · decide
  · decide

/-- C4 (amended): for every `units > 0` and every input shape of rank at
least 2 whose trailing dimension is defined AND NONZERO,
`compute_output_shape` returns the same shape with the trailing dimension
replaced by `units`, all other dimensions unchanged, and the rank
preserved. -/
theorem C4_theorem (u : ℤ) (s : List (Option ℤ)) (d : ℤ) (_hu : 0 < u)
    (hlen : 2 ≤ s.length) (hlast : s.getLast? = some (some d)) (hd : d ≠ 0) :
    CBFD_compute_output_shape u s = .ok (s.dropLast ++ [some u]) ∧
    (s.dropLast ++ [some u]).length = s.length := by
  refine ⟨cOS_ok_of u s d hlen hlast hd, ?_⟩
  simp only [List.length_append, List.length_dropLast, List.length_cons, List.length_nil]
  omega

/-- C4 witness: the amended theorem applied to the shape `(5, 7)` with
`units = 3`. -/
theorem C4_witness :
    CBFD_compute_output_shape 3 [some 5, some 7] =
      .ok (([some 5, some 7] : List (Option ℤ)).dropLast ++ [some 3]) ∧
    ((([some 5, some 7] : List (Option ℤ)).dropLast ++ [some 3]).length =
      ([some 5, some 7] : List (Option ℤ)).length) :=
  C4_theorem 3 [some 5, some 7] 7 (by decide) (by decide) (by decide) (by decide)

/-- C5, counterexample to the claim as stated: construction with
`units = 0` does NOT fail — `__init__` contains no validation of `units` —
and the resulting unit proceeds through `build` without error. -/
theorem C5_counterexample :
    CBFD_init 0 [] [] = .ok { units := 0, mw := [], mb := [], kernel := [], losses := [] } ∧
    CBFD_build [some 3, some 4] 0 = .ok (4, 0) := by
  constructor
  · decide
  · decide

/-- C5 (amended): construction with ANY `units` — zero and negative values
included — succeeds without a configuration error, stores `units`, `m_w`
and `m_b` unchanged, and the unit can proceed to `build` (shown on the
rank-2 shape `(3, 4)`).  Any failure for invalid `units` could only come
from the host framework, not from this repository's code. -/
theorem C5_theorem (u : ℤ) (mw mb : List ℚ) :
    ∃ s, CBFD_init u mw mb = .ok s ∧ s.units = u ∧ s.mw = mw ∧ s.mb = mb ∧
      CBFD_build [some 3, some 4] u = .ok (4, u) :=
  ⟨_, rfl, rfl, rfl, rfl, build_ok_of u [some 3, some 4] 4 (by decide) (by decide)⟩

/-- C6, counterexample to the claim as stated: two shapes satisfying the
claim's preconditions on which the operations nevertheless fail.
`build` on `(2, None)` has rank 2 (the only build precondition the claim
states) yet fails — `int(None)` raises — and `compute_output_shape` on
`(2, 0)` is nonempty, of rank 2, with a defined trailing dimension, yet
fails on the truthiness assert. -/
theorem C6_counterexample :
    CBFD_build [some 2, none] 3 = .error "TypeError" ∧
    CBFD_compute_output_shape 3 [some 2, some 0] = .error "AssertionError" := by
  constructor
  · decide
  · decide

/-- C6 (amended): `build` fails for rank below 2 and also for a defined
rank with an undefined (`None`) trailing dimension; `compute_output_shape`
fails for empty or rank-below-2 shapes, undefined trailing dimensions, and
also for a trailing dimension equal to 0; under the strengthened
preconditions (rank at least 2 and a defined trailing dimension, nonzero
for shape inference) neither operation fails. -/
theorem C6_theorem (u : ℤ) (s : List (Option ℤ)) :
    (s.length < 2 → CBFD_build s u = .error "AssertionError") ∧
    (2 ≤ s.length → s.getLast? = some none → CBFD_build s u = .error "TypeError") ∧
    (∀ d, 2 ≤ s.length → s.getLast? = some (some d) → CBFD_build s u = .ok (d, u)) ∧
    ((s.length < 2 ∨ s.getLast? = some none ∨ s.getLast? = some (some 0)) →
      CBFD_compute_output_shape u s = .error "AssertionError") ∧
    (∀ d, 2 ≤ s.length → s.getLast? = some (some d) → d ≠ 0 →
      CBFD_compute_output_shape u s = .ok (s.dropLast ++ [some u])) :=
  ⟨fun h => build_fail_short u s h,
   fun h2 hl => build_fail_none u s h2 hl,
   fun d h2 hl => build_ok_of u s d h2 hl,
   fun h => cOS_fail_of u s h,
   fun d h2 hl hd => cOS_ok_of u s d h2 hl hd⟩

/-- C6 witness: the amended theorem applied to concrete shapes covering
each of its five conjuncts. -/
theorem C6_witness :
    CBFD_build [some 9] 4 = .error "AssertionError" ∧
    CBFD_build [none, none] 4 = .error "TypeError" ∧
    CBFD_build [some 6, some 5] 4 = .ok (5, 4) ∧
    CBFD_compute_output_shape 4 [some 6, none] = .error "AssertionError" ∧
    CBFD_compute_output_shape 4 [some 6, some 5] =
      .ok (([some 6, some 5] : List (Option ℤ)).dropLast ++ [some 4]) :=
  ⟨(C6_theorem 4 [some 9]).1 (by decide),
   (C6_theorem 4 [none, none]).2.1 (by decide) (by decide),
   (C6_theorem 4 [some 6, some 5]).2.2.1 5 (by decide) (by decide),
   (C6_theorem 4 [some 6, none]).2.2.2.1 (Or.inr (Or.inl (by decide))),
   (C6_theorem 4 [some 6, some 5]).2.2.2.2 5 (by decide) (by decide) (by decide)⟩

/-- C7: the spec's worked example, on the instance `c7s` (`units = 2`,
`m_w = [0,0]`, `m_b = [1,1]`, identity weight, no activation) with input
`x = [[1,-1]]`: the projection is `z = [[1,-1]]`, the binarized output is
`b = [[1.5, 0.5]]`, `Sw = b - m_w = [[1.5, 0.5]]`,
`Sb = b - m_b = [[0.5, -0.5]]`, the first loss term is
`Sw - Sb = [[1, 1]]`, the call returns `b` and registers the loss
`[[-2248999, -248999]]`, which equals the spec's §4.1 step 6 formula
(`specLoss`) evaluated at these values (batch size 1, so the code's
trailing-axis mean alignment coincides with broadcast-back). -/
theorem C7_theorem :
    matmul [[1, -1]] c7s.kernel = some [[1, -1]] ∧
    smap binarize [[1, -1]] = [[3/2, 1/2]] ∧
    bop2 (· - ·) [[3/2, 1/2]] [c7s.mw] = some [[3/2, 1/2]] ∧
    bop2 (· - ·) [[3/2, 1/2]] [c7s.mb] = some [[1/2, -1/2]] ∧
    bop2 (· - ·) [[3/2, 1/2]] [[1/2, -1/2]] = some [[1, 1]] ∧
    CBFD_call none c7s [[1, -1]] =
      .ok ([[3/2, 1/2]], { c7s with losses := [[[-2248999, -248999]]] }) ∧
    specLoss [0, 0] [1, 1] [[1, -1]] = [[-2248999, -248999]] := by
  refine ⟨by decide, by decide, by decide, by decide, by decide, by decide, by decide⟩

/-- C8: the configuration record returned by `get_config` contains `units`
and the serialized activation, kernel-initializer, kernel-regularizer,
activity-regularizer and kernel-constraint entries, and introduces no
`m_w` or `m_b` key (so the full record lacks them whenever the base
layer's record does). -/
theorem C8_theorem (base : List (String × String)) (u : ℤ) (a ki kr ar kc : String) :
    ("units", toString u) ∈ CBFD_get_config base u a ki kr ar kc ∧
    ("activation", a) ∈ CBFD_get_config base u a ki kr ar kc ∧
    ("kernel_initializer", ki) ∈ CBFD_get_config base u a ki kr ar kc ∧
    ("kernel_regularizer", kr) ∈ CBFD_get_config base u a ki kr ar kc ∧
    ("activity_regularizer", ar) ∈ CBFD_get_config base u a ki kr ar kc ∧
    ("kernel_constraint", kc) ∈ CBFD_get_config base u a ki kr ar kc ∧
    ("m_w" ∉ base.map Prod.fst →
      "m_w" ∉ (CBFD_get_config base u a ki kr ar kc).map Prod.fst) ∧
    ("m_b" ∉ base.map Prod.fst →
      "m_b" ∉ (CBFD_get_config base u a ki kr ar kc).map Prod.fst) := by
  refine ⟨?_, ?_, ?_, ?_, ?_, ?_, ?_, ?_⟩ <;> simp [CBFD_get_config]

/-- C8 witness: the theorem applied to a concrete base record and
serialized strategy strings. -/
theorem C8_witness :
    ("units", toString (2:ℤ)) ∈
      CBFD_get_config [("name", "cbfd_1")] 2 "linear" "glorot_uniform" "null" "null" "null" ∧
    "m_w" ∉ (CBFD_get_config [("name", "cbfd_1")] 2 "linear" "glorot_uniform"
      "null" "null" "null").map Prod.fst ∧
    "m_b" ∉ (CBFD_get_config [("name", "cbfd_1")] 2 "linear" "glorot_uniform"
      "null" "null" "null").map Prod.fst :=
  ⟨(C8_theorem [("name", "cbfd_1")] 2 "linear" "glorot_uniform" "null" "null" "null").1,
   (C8_theorem [("name", "cbfd_1")] 2 "linear" "glorot_uniform" "null" "null" "null").2.2.2.2.2.2.1
     (by simp),
   (C8_theorem [("name", "cbfd_1")] 2 "linear" "glorot_uniform" "null" "null" "null").2.2.2.2.2.2.2
     (by simp)⟩

/-- C9: a forward call leaves `units`, `m_w`, `m_b` and the weight matrix
unchanged, its only state effect is appending the loss tensor `F` to the
registered losses, and a second call on the resulting state with the same
input and weights returns the same output. -/
theorem C9_theorem (act : Option (ℚ → ℚ)) (s : CBFDState) (x b : Arr2) (s' : CBFDState)
    (h : CBFD_call act s x = .ok (b, s')) :
    s'.units = s.units ∧ s'.mw = s.mw ∧ s'.mb = s.mb ∧ s'.kernel = s.kernel ∧
    (∃ F, s'.losses = s.losses ++ [F]) ∧
    ∀ b2 s2, CBFD_call act s' x = .ok (b2, s2) → b2 = b := by
  obtain ⟨F, hf, hs⟩ := CBFD_call_ok act s x b s' h
  subst hs
  refine ⟨rfl, rfl, rfl, rfl, ⟨F, rfl⟩, ?_⟩
  intro b2 s2 h2
  obtain ⟨F2, hf2, -⟩ := CBFD_call_ok act _ x b2 s2 h2
  have hf2' : CBFD_forward act s.kernel s.mw s.mb x = some (b2, F2) := hf2
  rw [hf] at hf2'
  injection hf2' with hp
  injection hp with h1 h2eq
  exact h1.symm

/-- C9 witness: the theorem applied to a concrete one-unit call; `w9s2` is
`w9s` with the loss `[[-249000]]` registered. -/
theorem C9_witness :
    w9s2.units = w9s.units ∧ w9s2.mw = w9s.mw ∧ w9s2.mb = w9s.mb ∧
    w9s2.kernel = w9s.kernel ∧ (∃ F, w9s2.losses = w9s.losses ++ [F]) ∧
    ∀ b2 s2, CBFD_call none w9s2 [[1]] = .ok (b2, s2) → b2 = [[3/2]] :=
  C9_theorem none w9s [[1]] [[3/2]] w9s2 (by decide)

/-- C10: `compute_output_shape` rejects a trailing dimension equal to 0
exactly the same way as an undefined (`None`) one — both hit the Python
`assert input_shape[-1]`, whose truthiness test fails for `0` and for
`None` — so a defined-but-zero `input_dim` never passes shape inference. -/
theorem C10_theorem (u : ℤ) (s : List (Option ℤ)) :
    (s.getLast? = some (some 0) → CBFD_compute_output_shape u s = .error "AssertionError") ∧
    (s.getLast? = some none → CBFD_compute_output_shape u s = .error "AssertionError") :=
  ⟨fun h => cOS_fail_of u s (Or.inr (Or.inr h)),
   fun h => cOS_fail_of u s (Or.inr (Or.inl h))⟩

/-- C10 witness: the theorem applied to the shapes `(2, 0)` and
`(2, None)`. -/
theorem C10_witness :
    CBFD_compute_output_shape 5 [some 2, some 0] = .error "AssertionError" ∧
    CBFD_compute_output_shape 5 [some 2, none] = .error "AssertionError" :=
  ⟨(C10_theorem 5 [some 2, some 0]).1 (by decide),
   (C10_theorem 5 [some 2, none]).2 (by decide)⟩
